import Mathlib

/-!
Verification of the ROCm/PyTorch build-orchestration script (`src/main.py`).

The script is shell-out glue: it probes the filesystem for a ROCm
installation (`detect_rocm_installation`), derives compiler flags and an
environment from the detected version (`check_rocm_compatibility`, the flag
and cmake-argument lists inside `build_pytorch`), runs the external build,
and looks for the produced wheel.

We embed it shallowly: the outcomes of the external world (filesystem
probes, the `rocm-smi` subprocess, the build subprocess, directory
listings) are fields of explicit state records, and each Python function
becomes a pure Lean function of that state which additionally records which
probes it performed (so that claims of the form "does not invoke the
diagnostic tool" are statable).  Python strings are Lean `String`s;
`re.search` for the two concrete patterns used by the script
(`rocm-(\d+\.\d+\.\d+)` and `ROCm-(\d+\.\d+\.\d+)`) is modelled by a
leftmost-match scanner with greedy ASCII-digit runs; `str.split`,
`sorted(...)[-1]`, `int(...)` and `dict.update` are modelled directly.
-/

/-- Maximal ASCII-digit run at the head of a character list, with the rest
(the greedy behaviour of a single regex atom of consecutive digits). -/
def takeDigits : List Char → List Char × List Char
  | [] => ([], [])
  | c :: cs =>
    if c.isDigit then
      let p := takeDigits cs
      (c :: p.1, p.2)
    else ([], c :: cs)

/-- Match digit-dot-digit-dot-digit runs at the head of the list, returning
the three captured digit runs.  Each run is nonempty and maximal, exactly as
the regex matches when anchored at this position. -/
def matchTriple (cs : List Char) : Option (List Char × List Char × List Char) :=
  let p1 := takeDigits cs
  if p1.1.isEmpty then none else
  match p1.2 with
  | '.' :: r2 =>
    let p2 := takeDigits r2
    if p2.1.isEmpty then none else
    match p2.2 with
    | '.' :: r4 =>
      let p3 := takeDigits r4
      if p3.1.isEmpty then none else some (p1.1, p2.1, p3.1)
    | _ => none
  | _ => none

/-- The text of a captured version triple, e.g. `"6.3.1"` (what
`match.group(1)` returns in the script). -/
def tripleStr (t : List Char × List Char × List Char) : String :=
  ⟨t.1 ++ '.' :: t.2.1 ++ '.' :: t.2.2⟩

/-- Remove a literal lead from a character list, or fail. -/
def stripLead : List Char → List Char → Option (List Char)
  | [], s => some s
  | _ :: _, [] => none
  | p :: ps, c :: cs => if p = c then stripLead ps cs else none

/-- Leftmost search for `lead` followed by a version triple: the model of
`re.search(lead + digit-triple-pattern, s)`, returning the captured group. -/
def searchVerList (lead : List Char) : List Char → Option String
  | [] => none
  | c :: cs =>
    match stripLead lead (c :: cs) with
    | some rest =>
      match matchTriple rest with
      | some t => some (tripleStr t)
      | none => searchVerList lead cs
    | none => searchVerList lead cs

/-- String-level wrapper for the version-pattern search. -/
def searchVer (lead s : String) : Option String :=
  searchVerList lead.data s.data

/-- Numeric value of a digit run. -/
def natOfDigits (ds : List Char) : Nat :=
  ds.foldl (fun a c => a * 10 + (c.toNat - 48)) 0

/-- Python `s.split(sep)` (auxiliary accumulator form). -/
def splitAux (sep : Char) : List Char → List Char → List String
  | [], acc => [⟨acc.reverse⟩]
  | c :: cs, acc =>
    if c = sep then (⟨acc.reverse⟩ : String) :: splitAux sep cs []
    else splitAux sep cs (c :: acc)

/-- Python `s.split(sep)` for a single-character separator. -/
def pySplit (sep : Char) (s : String) : List String :=
  splitAux sep s.data []

/-- Nonempty all-digit run to its value, else failure. -/
def digitsVal : List Char → Option Nat
  | [] => none
  | cs => if cs.all Char.isDigit then some (natOfDigits cs) else none

/-- Python `int(s)` on the string shapes this script can feed it: an
optional sign followed by decimal digits. -/
def intParse (s : String) : Option Int :=
  match s.data with
  | '-' :: rest => (digitsVal rest).map (fun n => -(n : Int))
  | '+' :: rest => (digitsVal rest).map (fun n => (n : Int))
  | l => (digitsVal l).map (fun n => (n : Int))

/-- A `"M.N.P"` string to its numeric triple (used to state claims that
speak of the version as three integers). -/
def verTriple (s : String) : Option (Nat × Nat × Nat) :=
  match pySplit '.' s with
  | [a, b, c] =>
    match digitsVal a.data, digitsVal b.data, digitsVal c.data with
    | some x, some y, some z => some (x, y, z)
    | _, _, _ => none
  | _ => none

/-- Python string order: lexicographic by code point, shorter lists first on
ties (the order `sorted` uses). -/
def lexLe : List Char → List Char → Bool
  | [], _ => true
  | _ :: _, [] => false
  | a :: as, b :: bs =>
    if a.toNat < b.toNat then true
    else if b.toNat < a.toNat then false
    else lexLe as bs

/-- `≤` on strings as Python compares them. -/
def strLe (a b : String) : Bool := lexLe a.data b.data

/-- Insert into a sorted list (insertion sort step). -/
def insertStr (x : String) : List String → List String
  | [] => [x]
  | y :: ys => if strLe x y then x :: y :: ys else y :: insertStr x ys

/-- `sorted(xs)` for strings. -/
def sortStrs : List String → List String
  | [] => []
  | x :: xs => insertStr x (sortStrs xs)

/-- `sorted(xs)[-1]`: the lexicographically-last element (the script indexes
only after checking the list is nonempty; the default is never used then). -/
def sortedLast (xs : List String) : String :=
  (sortStrs xs).getLastD ""

/-- Outcome of the `rocm-smi --showversion` subprocess call.
`notFound` is the missing-executable case (Python raises
`FileNotFoundError`, which the script does not catch); `callFailed` is a
nonzero exit (`subprocess.CalledProcessError`, which it does catch);
`output s` is a successful exit with stdout `s`. -/
inductive SmiOutcome
  | notFound
  | callFailed
  | output (s : String)
deriving DecidableEq

/-- The filesystem and subprocess facts `detect_rocm_installation` can
observe: whether `/opt/rocm` exists, whether it is a symlink and its
target, the diagnostic-tool outcome, and the `glob("/opt/rocm-*")`
result in the order the OS returns it. -/
structure FSState where
  rocmExists : Bool
  rocmIsLink : Bool
  linkTarget : String
  smi : SmiOutcome
  rocmDirs : List String
deriving DecidableEq

/-- How `detect_rocm_installation` can fail: its own
`RuntimeError` (no valid installation found), or the uncaught
`FileNotFoundError` from invoking an absent `rocm-smi`. -/
inductive DetectErr
  | runtimeError
  | fileNotFound
deriving DecidableEq

/-- Result of detection plus a record of which probes ran: whether the
symlink target was read, whether the diagnostic subprocess was attempted,
and whether the sibling-directory glob was enumerated. -/
structure DetectOut where
  result : Except DetectErr (String × String)
  linkRead : Bool
  smiInvoked : Bool
  globInvoked : Bool

/-- The fixed default installation path of the script. -/
def default_path : String := "/opt/rocm"

/-- The glob fallback (lines 34-39 of `src/main.py`): sort the matched
sibling directories, take the last, extract a version from its name. -/
def globStep (fs : FSState) (linkRead : Bool) : DetectOut :=
  if fs.rocmDirs.isEmpty then
    ⟨.error .runtimeError, linkRead, true, true⟩
  else
    match searchVer "rocm-" (sortedLast fs.rocmDirs) with
    | some v => ⟨.ok (default_path, v), linkRead, true, true⟩
    | none => ⟨.error .runtimeError, linkRead, true, true⟩

/-- `detect_rocm_installation` (lines 15-41 of `src/main.py`): the ordered
fallback chain over symlink target, diagnostic tool, and sibling glob. -/
def detect_rocm_installation (fs : FSState) : DetectOut :=
  if fs.rocmExists then
    match (if fs.rocmIsLink then searchVer "rocm-" fs.linkTarget else none) with
    | some v => ⟨.ok (default_path, v), fs.rocmIsLink, false, false⟩
    | none =>
      match fs.smi with
      | .notFound => ⟨.error .fileNotFound, fs.rocmIsLink, true, false⟩
      | .callFailed => globStep fs fs.rocmIsLink
      | .output s =>
        match searchVer "ROCm-" s with
        | some v => ⟨.ok (default_path, v), fs.rocmIsLink, true, false⟩
        | none => globStep fs fs.rocmIsLink
  else ⟨.error .runtimeError, false, false, false⟩

/-- The diagnostic step yielded no version even though the tool executable
was present: either the tool exited nonzero, or it exited zero with output
in which the version pattern does not occur. -/
def smiNoVersion (fs : FSState) : Prop :=
  fs.smi = .callFailed ∨ ∃ s, fs.smi = .output s ∧ searchVer "ROCm-" s = none

/-- `check_rocm_compatibility` (lines 94-104 of `src/main.py`): split the
version string on dots into exactly three parts (otherwise Python's unpack
raises `ValueError`, the `.error` case), parse the major part as an integer
(`ValueError` again on failure), and for major at least 6 return the four
version defines built by string concatenation. -/
def check_rocm_compatibility (rocm_version : String) : Except Unit (List String) :=
  match pySplit '.' rocm_version with
  | [major, minor, _p] =>
    match intParse major with
    | none => .error ()
    | some m =>
      if 6 ≤ m then
        .ok [ "-DROCM_VERSION_MAJOR=" ++ major,
              "-DROCM_VERSION_MINOR=" ++ minor,
              "-DROCM_VERSION=" ++ major ++ minor ++ "01",
              "-DTORCH_HIP_VERSION=" ++ major ++ minor ++ "0" ]
      else .ok []
  | _ => .error ()

/-- The `hipcc_flags` list of `build_pytorch` (lines 114-166 of
`src/main.py`), in source order.  `none` models the exceptions the
construction can raise: the `IndexError` of `rocm_version.split('.')[1]`
when the version has no dot, and the `ValueError` cases of
`check_rocm_compatibility` (all are caught by `build_pytorch`). -/
def hipccFlags (rocm_path rocm_version gpu_arch : String)
    (cpp_dirs : List String) : Option (List String) :=
  match (pySplit '.' rocm_version).get? 0, (pySplit '.' rocm_version).get? 1 with
  | some vmaj, some vmin =>
    match check_rocm_compatibility rocm_version with
    | .error _ => none
    | .ok extra =>
      some ([ "\"\\--rocm-path=" ++ rocm_path ++ "\"",
              "\"\\--rocm-device-lib-path=" ++ rocm_path ++ "/amdgcn/bitcode\"",
              "\"\\--offload-arch=" ++ gpu_arch ++ "\"",
              "-I" ++ rocm_path ++ "/include",
              "-I" ++ rocm_path ++ "/include/hip",
              "-I" ++ rocm_path ++ "/include/rocm",
              "-D__HIP_ENABLE_DEVICE_MALLOC__",
              "-DROCPRIM_DISABLE_UNINITIALIZED_ARRAY",
              "-DROCPRIM_THREAD_LOAD_USE_CACHE_MODIFIERS=0",
              "-D__HIP_ARCH_HAS_WARP_SHUFFLE__=1",
              "-D__HIP_PLATFORM_AMD__",
              "-D__HIP_ROCclr__" ]
            ++ cpp_dirs.map (fun d => "-I" ++ d)
            ++ [ "-D__HIP_PLATFORM_AMD__=1",
                 "-DROCM_VERSION_MAJOR=" ++ vmaj,
                 "-DROCM_VERSION_MINOR=" ++ vmin,
                 "-DHIP_COMPILER=clang",
                 "-DTHRUST_DEVICE_SYSTEM=THRUST_DEVICE_SYSTEM_HIP",
                 "-D__HIP_DISABLE_CPP_FUNCTIONS__",
                 "-DROCPRIM_DEFAULT_ALLOCATOR=1",
                 "--amdgpu-function-calls=false",
                 "-DROCPRIM_HIP_API=1",
                 "-DROCPRIM_DISABLE_HOST_NEW_DELETE=1",
                 "-D__HIP_NO_NEW_DELETE__",
                 "-D__host__=__attribute__((__host__))",
                 "-D__device__=__attribute__((__device__))",
                 "-D__forceinline__=__attribute__((always_inline)) inline",
                 "-D_HAS_UNIFIED_MEMORY=1",
                 "-std=c++17",
                 "-pthread",
                 "-fno-gpu-rdc",
                 "--offload-arch=" ++ gpu_arch,
                 "-fPIC",
                 "-Wno-deprecated-declarations",
                 "-Wno-unknown-cuda-version",
                 "-Wno-return-type-c-linkage",
                 "-Wno-unused-result",
                 "-D__HIP_PLATFORM_HCC__",
                 "-DHIP_CLANG_HCC_COMPAT_MODE=1",
                 "-DCAFFE2_USE_MIOPEN",
                 "-DHIPBLAS_V2",
                 "-DHIP_NEW_TYPE_ENUMS" ]
            ++ extra)
  | _, _ => none

/-- The fixed environment overrides of `build_pytorch` (lines 170-185),
given the already-joined compiler-flags blob. -/
def envUpdates (rocm_path gpu_arch flagsBlob : String) : List (String × String) :=
  [ ("MAX_JOBS", "4"),
    ("TORCH_CUDA_ARCH_LIST", gpu_arch),
    ("CMAKE_C_COMPILER", "/usr/bin/gcc-12"),
    ("CMAKE_CXX_COMPILER", "/usr/bin/g++-12"),
    ("HIP_PLATFORM", "amd"),
    ("ROCM_PATH", rocm_path),
    ("HIPCC_COMPILE_FLAGS_APPEND", flagsBlob),
    ("HIP_COMPILER", "clang"),
    ("HIPCC_VERBOSE", "1"),
    ("PYTORCH_ROCM_ARCH", gpu_arch),
    ("USE_ROCM", "1"),
    ("USE_CUDA", "0"),
    ("ROCM_HOME", rocm_path),
    ("HIP_PATH", rocm_path ++ "/hip") ]

/-- The `cmake_args` list of `build_pytorch` (lines 188-203), in source
order, with one include-directory entry appended per detected C++ dir. -/
def cmake_args (rocm_path rocm_version gpu_arch : String)
    (cpp_dirs : List String) : List String :=
  [ "-DCMAKE_CXX_STANDARD=17",
    "-DHIP_COMPILER_FLAGS=\"--offload-arch=" ++ gpu_arch ++ "\"",
    "-DCMAKE_HIP_ARCHITECTURES=" ++ gpu_arch,
    "-DROCM_PATH=" ++ rocm_path,
    "-DHIP_COMPILER=clang",
    "-DROCM_VERSION=" ++ rocm_version,
    "-DCMAKE_PREFIX_PATH=" ++ rocm_path,
    "-DHIP_PATH=" ++ rocm_path ++ "/hip",
    "-DUSE_ROCM=ON",
    "-DUSE_CUDA=OFF" ]
  ++ cpp_dirs.map (fun d => "-DCMAKE_CXX_STANDARD_INCLUDE_DIRECTORIES=" ++ d)

/-- Python `dict.update`: later keys overwrite, everything else is kept
(the spec declares insertion order irrelevant for the environment). -/
def pyDictUpdate (base upds : List (String × String)) : List (String × String) :=
  base.filter (fun kv => (upds.lookup kv.1).isNone) ++ upds

/-- The synthesized build environment: the variable mapping plus the two
space-joined blob strings it contains. -/
structure BuildEnvironment where
  env : List (String × String)
  flagsBlob : String
  cmakeBlob : String
deriving DecidableEq

/-- Environment synthesis of `build_pytorch` (lines 114-205): build the
compiler-flag list, join it with single spaces into
`HIPCC_COMPILE_FLAGS_APPEND`, overlay the fixed variables on the base
process environment, then join `cmake_args` into `CMAKE_ARGS`. -/
def synthesizeEnvironment (baseEnv : List (String × String))
    (rocm_path rocm_version gpu_arch : String)
    (cpp_dirs : List String) : Option BuildEnvironment :=
  match hipccFlags rocm_path rocm_version gpu_arch cpp_dirs with
  | none => none
  | some flags =>
    let fb := String.intercalate " " flags
    let cb := String.intercalate " " (cmake_args rocm_path rocm_version gpu_arch cpp_dirs)
    some ⟨ pyDictUpdate (pyDictUpdate baseEnv (envUpdates rocm_path gpu_arch fb))
             [("CMAKE_ARGS", cb)], fb, cb ⟩

/-- What `check_dependencies` reports when it succeeds: the GCC version,
its path, and the existing C++ include directories.  The function itself
only shells out (`gcc -dumpversion`, `which`) and probes fixed paths, so
its outcome is part of the modelled state. -/
structure DepsInfo where
  gcc_major : Nat
  gcc_minor : Nat
  gcc_path : String
  cpp_dirs : List String
deriving DecidableEq

/-- The world `build_pytorch` interacts with: the detection state, the
outcome of `check_dependencies` (`none` models any of its `RuntimeError`s),
whether `os.chdir(source_path)` succeeds, the exit status of the
`setup.py bdist_wheel` subprocess, and the names `Path('dist').glob`
yields in the order the OS returns them. -/
structure BuildFs where
  detectFs : FSState
  deps : Option DepsInfo
  chdirOk : Bool
  buildExit : Nat
  distListing : List String
deriving DecidableEq

/-- What `build_pytorch` produced: its boolean result, the wheel path it
logs on success, whether the build subprocess was actually started, and
the record of the detection probes. -/
structure BuildOut where
  success : Bool
  wheel : Option String
  buildInvoked : Bool
  detect : DetectOut

/-- Literal-lead test on character lists (used for the glob pattern). -/
def listStarts : List Char → List Char → Bool
  | [], _ => true
  | _ :: _, [] => false
  | p :: ps, c :: cs => p = c && listStarts ps cs

/-- `Path('dist').glob('*.whl')` membership: names ending in `.whl`.  The
`*` wildcard of `pathlib.Path.glob` matches any character run, including
the empty one and a leading dot, so hidden names are matched too. -/
def whlMatch (n : String) : Bool :=
  listStarts ".whl".data.reverse n.data.reverse

set_option linter.unusedVariables false in
/-- `build_pytorch` (lines 106-226 of `src/main.py`).  Every exception in
the `try` body — detection failure (including the uncaught subprocess
lookup error), dependency failure, flag-building errors, a failing
`chdir`, a nonzero build exit — lands in the `except Exception` handler
and yields `False`.  On a zero build exit the wheel reported is the LAST
element of the glob listing (`wheels[-1]`), with no sorting. -/
def build_pytorch (st : BuildFs) (baseEnv : List (String × String))
    (python_version gpu_arch : String) : BuildOut :=
  match (detect_rocm_installation st.detectFs).result with
  | .error _ => ⟨false, none, false, detect_rocm_installation st.detectFs⟩
  | .ok (rocm_path, rocm_version) =>
    match st.deps with
    | none => ⟨false, none, false, detect_rocm_installation st.detectFs⟩
    | some deps =>
      match synthesizeEnvironment baseEnv rocm_path rocm_version gpu_arch deps.cpp_dirs with
      | none => ⟨false, none, false, detect_rocm_installation st.detectFs⟩
      | some _env =>
        if st.chdirOk then
          if st.buildExit = 0 then
            match (st.distListing.filter whlMatch).getLast? with
            | some w => ⟨true, some w, true, detect_rocm_installation st.detectFs⟩
            | none => ⟨false, none, true, detect_rocm_installation st.detectFs⟩
          else ⟨false, none, true, detect_rocm_installation st.detectFs⟩
        else ⟨false, none, false, detect_rocm_installation st.detectFs⟩

/-- The world of `main`: which paths exist (for the source-directory
check), the base process environment, and the build-time state. -/
structure World where
  sourceExists : String → Bool
  baseEnv : List (String × String)
  bst : BuildFs

/-- What a `main` run did: the process exit status, the three resolved
positional arguments, and the build outcome when `build_pytorch` ran
(`none` when `main` exited before any resolution). -/
structure MainOut where
  exit : Nat
  src : String
  py : String
  arch : String
  ran : Option BuildOut

/-- Default source directory of `main` (line 230). -/
def defaultSource : String := "/home/riccardo/Sources/Gits/pytorch"

/-- `main` (lines 229-239 of `src/main.py`): fill missing positional
arguments with the hardcoded defaults, exit 1 if the source directory does
not exist, otherwise run `build_pytorch` and map its boolean to the exit
status.  `args` is `sys.argv[1:]`. -/
def main_run (args : List String) (w : World) : MainOut :=
  let source_path := args.getD 0 defaultSource
  let python_version := args.getD 1 "python3.11"
  let gpu_arch := args.getD 2 "gfx1102"
  if w.sourceExists source_path then
    let b := build_pytorch w.bst w.baseEnv python_version gpu_arch
    ⟨if b.success then 0 else 1, source_path, python_version, gpu_arch, some b⟩
  else
    ⟨1, source_path, python_version, gpu_arch, none⟩

/-- A state whose default path is a symlink to a versioned target. -/
def fsC1 : FSState := ⟨true, true, "/opt/rocm-6.3.1", .callFailed, []⟩

/-- Siblings 5.7.0 and 6.1.2, no usable link, failing tool. -/
def fsC2a : FSState :=
  ⟨true, false, "", .callFailed, ["/opt/rocm-5.7.0", "/opt/rocm-6.1.2"]⟩

/-- Siblings 6.9.0 and 6.10.0, no usable link, failing tool. -/
def fsC2b : FSState :=
  ⟨true, false, "", .callFailed, ["/opt/rocm-6.9.0", "/opt/rocm-6.10.0"]⟩

/-- A state without the default installation path. -/
def fsC3 : FSState := ⟨false, false, "", .output "ROCm-6.3.1", ["/opt/rocm-6.3.1"]⟩

/-- A state where the diagnostic tool binary is absent while a matching
sibling directory exists. -/
def fsC4 : FSState := ⟨true, false, "", .notFound, ["/opt/rocm-6.1.2"]⟩

/-- A state whose tool runs and fails with a nonzero exit. -/
def fsC4b : FSState := ⟨true, false, "", .callFailed, []⟩

/-- Dependency report used in the concrete build states. -/
def depsC5 : DepsInfo := ⟨12, 0, "/usr/bin/gcc", ["/usr/include/c++"]⟩

/-- A build state whose listing enumerates `b-2.whl` before `a-1.whl`. -/
def stC5 : BuildFs :=
  ⟨⟨true, true, "rocm-6.3.1", .callFailed, []⟩, some depsC5, true, 0,
   ["b-2.whl", "a-1.whl"]⟩

/-- A world whose source directory never exists. -/
def wC10 : World :=
  ⟨fun _ => false, [], ⟨⟨false, false, "", .callFailed, []⟩, none, false, 1, []⟩⟩

/-- The glob fallback always records that the sibling enumeration ran. -/
theorem globStep_globInvoked (fs : FSState) (b : Bool) :
    (globStep fs b).globInvoked = true := by
  unfold globStep
  split
  · rfl
  · split <;> rfl

/-- The symlink branch is skipped exactly when the path is not a link or
its target carries no version. -/
theorem linkBranch_none (fs : FSState)
    (hlink : fs.rocmIsLink = true → searchVer "rocm-" fs.linkTarget = none) :
    (if fs.rocmIsLink then searchVer "rocm-" fs.linkTarget else none) = none := by
  cases h : fs.rocmIsLink with
  | false => simp
  | true => simp [hlink h]

/-- A nonempty directory list is not `isEmpty`. -/
theorem rocmDirs_not_isEmpty (fs : FSState) (hne : fs.rocmDirs ≠ []) :
    fs.rocmDirs.isEmpty = false := by
  cases hd : fs.rocmDirs with
  | nil => exact absurd hd hne
  | cons a l => rfl

/-- C1: when the default installation path exists and is a symbolic link
whose target contains a `rocm-<major>.<minor>.<patch>` triple, detection
returns the default path with the version captured from the link target,
and neither invokes the diagnostic tool nor enumerates sibling
directories. -/
theorem detect_symlink_version_trusted (fs : FSState) (v : String)
    (hex : fs.rocmExists = true) (hlink : fs.rocmIsLink = true)
    (hver : searchVer "rocm-" fs.linkTarget = some v) :
    (detect_rocm_installation fs).result = .ok (default_path, v) ∧
    (detect_rocm_installation fs).smiInvoked = false ∧
    (detect_rocm_installation fs).globInvoked = false := by
  simp [detect_rocm_installation, hex, hlink, hver]

/-- C1 witness: on a link targeting `/opt/rocm-6.3.1` the captured version
is `6.3.1`, i.e. the triple (6,3,1), and no fallback probe runs. -/
theorem detect_symlink_version_trusted_witness :
    fsC1.rocmExists = true ∧ fsC1.rocmIsLink = true ∧
    searchVer "rocm-" fsC1.linkTarget = some "6.3.1" ∧
    verTriple "6.3.1" = some (6, 3, 1) ∧
    ((detect_rocm_installation fsC1).result = .ok (default_path, "6.3.1") ∧
     (detect_rocm_installation fsC1).smiInvoked = false ∧
     (detect_rocm_installation fsC1).globInvoked = false) :=
  ⟨rfl, rfl, by decide, by decide,
   detect_symlink_version_trusted fsC1 "6.3.1" rfl rfl (by decide)⟩

/-- C2: when the default path exists, the symlink step yields no version,
the diagnostic tool ran but yielded none, and some sibling directory
matches the glob, detection returns the version extracted from the
lexicographically-last match of the plain string sort. -/
theorem detect_glob_lexicographic_last (fs : FSState) (v : String)
    (hex : fs.rocmExists = true)
    (hlink : fs.rocmIsLink = true → searchVer "rocm-" fs.linkTarget = none)
    (hsmi : smiNoVersion fs)
    (hne : fs.rocmDirs ≠ [])
    (hver : searchVer "rocm-" (sortedLast fs.rocmDirs) = some v) :
    (detect_rocm_installation fs).result = .ok (default_path, v) := by
  have hl := linkBranch_none fs hlink
  have hne2 := rocmDirs_not_isEmpty fs hne
  rcases hsmi with hsmi | ⟨s, hs, hnov⟩
  · simp [detect_rocm_installation, hex, hl, hsmi, globStep, hne2, hver]
  · simp [detect_rocm_installation, hex, hl, hs, hnov, globStep, hne2, hver]

/-- C2 witness: among 5.7.0 and 6.1.2 the textual sort picks 6.1.2; among
6.9.0 and 6.10.0 it picks 6.9.0 (the textual, not numeric, maximum). -/
theorem detect_glob_lexicographic_last_witness :
    (sortedLast fsC2a.rocmDirs = "/opt/rocm-6.1.2" ∧
     (detect_rocm_installation fsC2a).result = .ok (default_path, "6.1.2")) ∧
    (sortedLast fsC2b.rocmDirs = "/opt/rocm-6.9.0" ∧
     (detect_rocm_installation fsC2b).result = .ok (default_path, "6.9.0")) :=
  ⟨⟨by decide, detect_glob_lexicographic_last fsC2a "6.1.2" rfl
      (fun h => absurd h (by decide)) (Or.inl rfl) (by decide) (by decide)⟩,
   ⟨by decide, detect_glob_lexicographic_last fsC2b "6.9.0" rfl
      (fun h => absurd h (by decide)) (Or.inl rfl) (by decide) (by decide)⟩⟩

/-- C3: when the default installation path does not exist, detection fails
with the `RuntimeError` immediately: the link is not read, the diagnostic
tool is not invoked, the sibling glob is not enumerated. -/
theorem detect_missing_default_path_fails (fs : FSState)
    (hex : fs.rocmExists = false) :
    detect_rocm_installation fs =
      ⟨.error .runtimeError, false, false, false⟩ := by
  simp [detect_rocm_installation, hex]

/-- C3 witness: even with a version-bearing tool and matching siblings
available, a missing default path fails with no fallback probe. -/
theorem detect_missing_default_path_fails_witness :
    fsC3.rocmExists = false ∧
    detect_rocm_installation fsC3 = ⟨.error .runtimeError, false, false, false⟩ :=
  ⟨rfl, detect_missing_default_path_fails fsC3 rfl⟩

/-- C4 counterexample: with the tool binary absent (`FileNotFoundError`,
which the script does not catch), detection does NOT proceed to the
sibling-directory fallback; the lookup error escapes instead. -/
theorem detect_smi_missing_no_fallback :
    (detect_rocm_installation fsC4).globInvoked = false ∧
    (detect_rocm_installation fsC4).result = .error .fileNotFound :=
  ⟨rfl, rfl⟩

/-- C4 amended: when the tool binary is present and its invocation either
exits nonzero (`CalledProcessError`, caught) or exits zero without
version-bearing output, detection proceeds to the sibling-glob
fallback. -/
theorem detect_smi_soft_failure_falls_through (fs : FSState)
    (hex : fs.rocmExists = true)
    (hlink : fs.rocmIsLink = true → searchVer "rocm-" fs.linkTarget = none)
    (hsmi : smiNoVersion fs) :
    (detect_rocm_installation fs).globInvoked = true := by
  have hl := linkBranch_none fs hlink
  rcases hsmi with hsmi | ⟨s, hs, hnov⟩
  · simp [detect_rocm_installation, hex, hl, hsmi, globStep_globInvoked]
  · simp [detect_rocm_installation, hex, hl, hs, hnov, globStep_globInvoked]

/-- C4 amended witness: a present-but-failing tool falls through to the
sibling enumeration (which runs even when it finds nothing). -/
theorem detect_smi_soft_failure_falls_through_witness :
    fsC4b.rocmExists = true ∧ smiNoVersion fsC4b ∧
    (detect_rocm_installation fsC4b).globInvoked = true :=
  ⟨rfl, Or.inl rfl,
   detect_smi_soft_failure_falls_through fsC4b rfl
     (fun h => absurd h (by decide)) (Or.inl rfl)⟩

/-- C5 amended: once detection, dependency checking, environment synthesis
and the directory change have succeeded, the build reports success exactly
when the external command exits 0 and at least one artifact matches in the
output directory; the wheel it reports is the LAST matching entry in the
directory-enumeration order (the listing is never sorted). -/
theorem build_success_iff_exit0_and_artifact (st : BuildFs)
    (baseEnv : List (String × String)) (py arch path ver : String)
    (deps : DepsInfo)
    (hdet : (detect_rocm_installation st.detectFs).result = .ok (path, ver))
    (hdeps : st.deps = some deps)
    (hsynth : (synthesizeEnvironment baseEnv path ver arch deps.cpp_dirs).isSome = true)
    (hchdir : st.chdirOk = true) :
    ((build_pytorch st baseEnv py arch).success = true ↔
      (st.buildExit = 0 ∧ st.distListing.filter whlMatch ≠ [])) ∧
    (build_pytorch st baseEnv py arch).wheel =
      (if st.buildExit = 0 then (st.distListing.filter whlMatch).getLast? else none) := by
  obtain ⟨env, henv⟩ := Option.isSome_iff_exists.mp hsynth
  unfold build_pytorch
  simp only [hdet, hdeps, henv, hchdir, if_true]
  by_cases hz : st.buildExit = 0
  · cases hw : (st.distListing.filter whlMatch).getLast? with
    | none =>
      have : st.distListing.filter whlMatch = [] := by
        cases hfil : st.distListing.filter whlMatch with
        | nil => rfl
        | cons a l => rw [hfil] at hw; simp [List.getLast?] at hw
      simp [hz, hw, this]
    | some wfound =>
      have : st.distListing.filter whlMatch ≠ [] := by
        intro hfil; rw [hfil] at hw; simp at hw
      simp [hz, hw, this]
  · simp [hz]

/-- C5 counterexample: with both artifacts present but enumerated as
`b-2.whl` then `a-1.whl`, the build succeeds yet reports `a-1.whl`, which
is not the lexicographically-last matching artifact `b-2.whl`. -/
theorem build_wheel_not_lex_last :
    (build_pytorch stC5 [] "python3.11" "gfx1102").success = true ∧
    (build_pytorch stC5 [] "python3.11" "gfx1102").wheel = some "a-1.whl" ∧
    sortedLast (stC5.distListing.filter whlMatch) = "b-2.whl" ∧
    (build_pytorch stC5 [] "python3.11" "gfx1102").wheel ≠
      some (sortedLast (stC5.distListing.filter whlMatch)) := by
  refine ⟨rfl, rfl, by decide, by decide⟩

/-- C5 amended witness: the success-iff-artifact equivalence and the
enumeration-order wheel choice, at the concrete state. -/
theorem build_success_iff_exit0_and_artifact_witness :
    (detect_rocm_installation stC5.detectFs).result = .ok (default_path, "6.3.1") ∧
    stC5.chdirOk = true ∧
    (((build_pytorch stC5 [] "python3.11" "gfx1102").success = true ↔
       (stC5.buildExit = 0 ∧ stC5.distListing.filter whlMatch ≠ [])) ∧
     (build_pytorch stC5 [] "python3.11" "gfx1102").wheel =
       (if stC5.buildExit = 0 then (stC5.distListing.filter whlMatch).getLast? else none)) :=
  ⟨rfl, rfl,
   build_success_iff_exit0_and_artifact stC5 [] "python3.11" "gfx1102"
     default_path "6.3.1" depsC5 rfl rfl (by decide) rfl⟩

/-- C6: environment synthesis is deterministic — equal base environments,
toolchain paths, versions, target architectures and include directories
give equal synthesized environments, in particular byte-identical
compiler-flags and build-system-args blobs. -/
theorem synthesizeEnvironment_deterministic
    (b1 b2 : List (String × String)) (p1 p2 v1 v2 a1 a2 : String)
    (c1 c2 : List String)
    (hb : b1 = b2) (hp : p1 = p2) (hv : v1 = v2) (ha : a1 = a2) (hc : c1 = c2) :
    synthesizeEnvironment b1 p1 v1 a1 c1 = synthesizeEnvironment b2 p2 v2 a2 c2 ∧
    (synthesizeEnvironment b1 p1 v1 a1 c1).map BuildEnvironment.flagsBlob =
      (synthesizeEnvironment b2 p2 v2 a2 c2).map BuildEnvironment.flagsBlob ∧
    (synthesizeEnvironment b1 p1 v1 a1 c1).map BuildEnvironment.cmakeBlob =
      (synthesizeEnvironment b2 p2 v2 a2 c2).map BuildEnvironment.cmakeBlob := by
  subst hb hp hv ha hc
  exact ⟨rfl, rfl, rfl⟩

/-- C6 witness: two invocations on the fixed toolchain info
(`/opt/rocm`, version 6.3.1, target gfx1102, one include dir) agree. -/
theorem synthesizeEnvironment_deterministic_witness :
    ("/opt/rocm" : String) = "/opt/rocm" ∧
    (synthesizeEnvironment [] "/opt/rocm" "6.3.1" "gfx1102" ["/usr/include/c++"] =
      synthesizeEnvironment [] "/opt/rocm" "6.3.1" "gfx1102" ["/usr/include/c++"] ∧
     (synthesizeEnvironment [] "/opt/rocm" "6.3.1" "gfx1102" ["/usr/include/c++"]).map
         BuildEnvironment.flagsBlob =
       (synthesizeEnvironment [] "/opt/rocm" "6.3.1" "gfx1102" ["/usr/include/c++"]).map
         BuildEnvironment.flagsBlob ∧
     (synthesizeEnvironment [] "/opt/rocm" "6.3.1" "gfx1102" ["/usr/include/c++"]).map
         BuildEnvironment.cmakeBlob =
       (synthesizeEnvironment [] "/opt/rocm" "6.3.1" "gfx1102" ["/usr/include/c++"]).map
         BuildEnvironment.cmakeBlob) :=
  ⟨rfl, synthesizeEnvironment_deterministic [] [] "/opt/rocm" "/opt/rocm"
    "6.3.1" "6.3.1" "gfx1102" "gfx1102" ["/usr/include/c++"] ["/usr/include/c++"]
    rfl rfl rfl rfl rfl⟩

/-- C7 counterexample: at version `6.3.1` the compatibility defines contain
`-DROCM_VERSION=6301` (decimal concatenation of major, minor and the
literal `01`) and do NOT contain `-DROCM_VERSION=631`, the value
`major*100 + minor*10 + 1 = 631` the claim asserts. -/
theorem rocm_version_define_not_weighted_sum :
    check_rocm_compatibility "6.3.1" =
      .ok ["-DROCM_VERSION_MAJOR=6", "-DROCM_VERSION_MINOR=3",
           "-DROCM_VERSION=6301", "-DTORCH_HIP_VERSION=630"] ∧
    6 * 100 + 3 * 10 + 1 = 631 ∧
    "-DROCM_VERSION=631" ∉
      ["-DROCM_VERSION_MAJOR=6", "-DROCM_VERSION_MINOR=3",
       "-DROCM_VERSION=6301", "-DTORCH_HIP_VERSION=630"] :=
  ⟨rfl, rfl, by decide⟩

/-- C7 amended: for any version whose major part is an integer of at least
6, the ROCM_VERSION define is the textual concatenation of the major
string, the minor string and the literal `01` (so `6301` for 6.3.x), not
the weighted sum `major*100 + minor*10 + 1`. -/
theorem rocm_version_define_concat (ver major minor p : String) (m : Int)
    (hsplit : pySplit '.' ver = [major, minor, p])
    (hm : intParse major = some m) (h6 : 6 ≤ m) :
    check_rocm_compatibility ver =
      .ok ["-DROCM_VERSION_MAJOR=" ++ major, "-DROCM_VERSION_MINOR=" ++ minor,
           "-DROCM_VERSION=" ++ major ++ minor ++ "01",
           "-DTORCH_HIP_VERSION=" ++ major ++ minor ++ "0"] := by
  simp [check_rocm_compatibility, hsplit, hm, h6]

/-- C7 amended witness: instantiated at version `6.3.1`. -/
theorem rocm_version_define_concat_witness :
    pySplit '.' "6.3.1" = ["6", "3", "1"] ∧ intParse "6" = some 6 ∧
    check_rocm_compatibility "6.3.1" =
      .ok ["-DROCM_VERSION_MAJOR=" ++ "6", "-DROCM_VERSION_MINOR=" ++ "3",
           "-DROCM_VERSION=" ++ "6" ++ "3" ++ "01",
           "-DTORCH_HIP_VERSION=" ++ "6" ++ "3" ++ "0"] :=
  ⟨by decide, by decide,
   rocm_version_define_concat "6.3.1" "6" "3" "1" 6 (by decide) (by decide)
     (by decide)⟩

/-- C8: the process exit status is 0 or 1, and it is 0 exactly when the
source directory exists and `build_pytorch` reports success — every
detection, synthesis or build error lands in the boolean failure and thus
in exit status 1, with each stage run at most once. -/
theorem main_exit_status (args : List String) (w : World) :
    ((main_run args w).exit = 0 ∨ (main_run args w).exit = 1) ∧
    ((main_run args w).exit = 0 ↔
      (w.sourceExists (args.getD 0 defaultSource) = true ∧
       (build_pytorch w.bst w.baseEnv (args.getD 1 "python3.11")
          (args.getD 2 "gfx1102")).success = true)) := by
  simp only [main_run]
  cases hse : w.sourceExists (args.getD 0 defaultSource) with
  | false => simp [hse]
  | true =>
    cases hb : (build_pytorch w.bst w.baseEnv (args.getD 1 "python3.11")
        (args.getD 2 "gfx1102")).success with
    | false => simp [hse, hb]
    | true => simp [hse, hb]

/-- C9: a version whose major component parses as an integer below 6 gets
no version-derived defines: `check_rocm_compatibility` returns the empty
list. -/
theorem check_rocm_pre6_empty (ver major minor p : String) (m : Int)
    (hsplit : pySplit '.' ver = [major, minor, p])
    (hm : intParse major = some m) (hlt : m < 6) :
    check_rocm_compatibility ver = .ok [] := by
  have h6 : ¬ (6 ≤ m) := by omega
  simp [check_rocm_compatibility, hsplit, hm, h6]

/-- C9 witness: version `5.7.0` yields no defines. -/
theorem check_rocm_pre6_empty_witness :
    pySplit '.' "5.7.0" = ["5", "7", "0"] ∧ intParse "5" = some 5 ∧
    (5 : Int) < 6 ∧ check_rocm_compatibility "5.7.0" = .ok [] :=
  ⟨by decide, by decide, by decide,
   check_rocm_pre6_empty "5.7.0" "5" "7" "0" 5 (by decide) (by decide)
     (by decide)⟩

/-- C10: with fewer than three positional arguments the missing ones are
the hardcoded defaults (source directory, build command `python3.11`,
architecture `gfx1102`) — there is no usage error — and when the resolved
source directory does not exist the run exits 1 without any resolution. -/
theorem main_defaults_and_early_exit (args : List String) (w : World)
    (hlen : args.length < 3) :
    ((args.length = 0 → (main_run args w).src = defaultSource) ∧
     (args.length ≤ 1 → (main_run args w).py = "python3.11") ∧
     (main_run args w).arch = "gfx1102") ∧
    (w.sourceExists (args.getD 0 defaultSource) = false →
      (main_run args w).exit = 1 ∧ (main_run args w).ran = none) := by
  have hproj : (main_run args w).src = args.getD 0 defaultSource ∧
      (main_run args w).py = args.getD 1 "python3.11" ∧
      (main_run args w).arch = args.getD 2 "gfx1102" := by
    simp only [main_run]
    cases hse : w.sourceExists (args.getD 0 defaultSource) <;> simp [hse]
  refine ⟨⟨?_, ?_, ?_⟩, ?_⟩
  · intro h0
    rw [hproj.1, List.getD_eq_default]
    omega
  · intro h1
    rw [hproj.2.1, List.getD_eq_default]
    omega
  · rw [hproj.2.2, List.getD_eq_default]
    omega
  · intro hne
    have hne2 : w.sourceExists (args[0]?.getD defaultSource) = false := by
      simpa [List.getD] using hne
    simp only [main_run]
    simp [hne2]

/-- C10 witness: a bare invocation (no positional arguments) resolves to
the three defaults and, with the default source directory absent, exits 1
before any resolution. -/
theorem main_defaults_and_early_exit_witness :
    ([] : List String).length < 3 ∧
    ((([] : List String).length = 0 → (main_run [] wC10).src = defaultSource) ∧
     (([] : List String).length ≤ 1 → (main_run [] wC10).py = "python3.11") ∧
     (main_run [] wC10).arch = "gfx1102") ∧
    (wC10.sourceExists (([] : List String).getD 0 defaultSource) = false →
      (main_run [] wC10).exit = 1 ∧ (main_run [] wC10).ran = none) :=
  ⟨by decide,
   (main_defaults_and_early_exit [] wC10 (by decide)).1,
   (main_defaults_and_early_exit [] wC10 (by decide)).2⟩
